import Mathlib

/-!
Verification of the confidence-gated plant-analysis core of the
ai-plant-detection repository: the chat prompt construction
(`GeminiChatbot`/`PlantChatbot` components), the analyze-plant edge
function's response handling, and the backend arbitrator / usage-ledger
contract described by the repository documentation.
-/

namespace PlantDetect

/-! ## Substring occurrence machinery -/

/-- Boolean check that the pattern occurs as a contiguous run inside `s`. -/
def containsSub : List Char → List Char → Bool
  | pat, [] => decide (pat = [])
  | pat, c :: rest => pat.isPrefixOf (c :: rest) || containsSub pat rest

/-- The string `pat` occurs as a contiguous substring of `s`. -/
def occursIn (pat s : String) : Prop := containsSub pat.data s.data = true

instance (pat s : String) : Decidable (occursIn pat s) := by
  unfold occursIn; infer_instance

theorem isPrefixOf_self_append : ∀ (p q : List Char), p.isPrefixOf (p ++ q) = true
  | [], _ => by simp
  | c :: p, q => by
      simp only [List.cons_append, List.isPrefixOf_cons₂_self]
      exact isPrefixOf_self_append p q

theorem containsSub_nil_left : ∀ s : List Char, containsSub [] s = true
  | [] => by simp [containsSub]
  | _ :: rest => by
      simp [containsSub]

theorem containsSub_append_self :
    ∀ (x p y : List Char), containsSub p (x ++ (p ++ y)) = true
  | [], [], y => by simpa using containsSub_nil_left y
  | [], c :: p, y => by
      have h : (c :: p).isPrefixOf ((c :: p) ++ y) = true :=
        isPrefixOf_self_append (c :: p) y
      have e : containsSub (c :: p) ([] ++ ((c :: p) ++ y)) =
          ((c :: p).isPrefixOf ((c :: p) ++ y) || containsSub (c :: p) (p ++ y)) := rfl
      rw [e, h, Bool.true_or]
  | c :: x, p, y => by
      have ih := containsSub_append_self x p y
      have e : containsSub p ((c :: x) ++ (p ++ y)) =
          (p.isPrefixOf ((c :: x) ++ (p ++ y)) || containsSub p (x ++ (p ++ y))) := rfl
      rw [e, ih, Bool.or_true]

/-- Exhibiting an occurrence: it suffices to split the character data. -/
theorem occursIn_witness {p s : String} (x y : List Char)
    (h : s.data = x ++ (p.data ++ y)) : occursIn p s := by
  unfold occursIn
  rw [h]
  exact containsSub_append_self x p.data y

/-! ## Chat prompt construction (GeminiChatbot component) -/

/-- Structured analysis context handed to the chatbot. -/
structure PlantAnalysisContext where
  plantName : String
  diseaseDetected : Bool
  diseaseName : String
  confidence : Nat
  severity : String
  symptoms : List String
  recommendations : List String
  healthScore : Nat
  aiAssist : Option String
deriving DecidableEq

/-- Generic system prompt used when no analysis context is present. -/
def genericPrompt : String :=
  "You are a helpful plant care assistant with expertise in plant diseases, treatment, and general plant care. \nBe friendly, concise, and provide actionable advice."

def promptHeader : String :=
  "You are an expert plant care assistant. The user has just analyzed their plant with the following results:\n\n"

def promptTail : String :=
  "\nAnswer user questions based on this analysis. Be specific, helpful, and reference the analysis data when relevant. \nKeep responses concise but informative. If asked about treatment, provide step-by-step guidance."

/-- Lines appended only when a disease was detected. -/
def diseaseSection (ctx : PlantAnalysisContext) : String :=
  "Disease Name: " ++ ctx.diseaseName ++ "\n" ++
  "Severity: " ++ ctx.severity ++ "\n" ++
  "Confidence: " ++ toString ctx.confidence ++ "%" ++ "\n" ++
  "Health Score: " ++ toString ctx.healthScore ++ "/100" ++ "\n" ++
  (if 0 < ctx.symptoms.length then
    "Symptoms: " ++ String.intercalate ", " ctx.symptoms ++ "\n" else "") ++
  (if 0 < ctx.recommendations.length then
    "Recommendations: " ++ String.intercalate ", " ctx.recommendations ++ "\n" else "")

/-- Line appended when no disease was detected. -/
def healthySection (ctx : PlantAnalysisContext) : String :=
  "The plant appears healthy with a score of " ++ toString ctx.healthScore ++
    "/100." ++ "\n"

/-- Optional detailed-analysis paragraph. -/
def aiAssistSection (ctx : PlantAnalysisContext) : String :=
  match ctx.aiAssist with
  | some a => "\nDetailed Analysis: " ++ a ++ "\n"
  | none => ""

/-- System prompt builder of the GeminiChatbot component. -/
def buildSystemPrompt : Option PlantAnalysisContext → String
  | none => genericPrompt
  | some ctx =>
      promptHeader ++
      "Plant Name: " ++ ctx.plantName ++ "\n" ++
      "Disease Detected: " ++ (if ctx.diseaseDetected then "Yes" else "No") ++ "\n" ++
      (if ctx.diseaseDetected then diseaseSection ctx else healthySection ctx) ++
      aiAssistSection ctx ++
      promptTail

/-- Chat message roles. -/
inductive Role
  | user
  | assistant
deriving DecidableEq

/-- One chat message. -/
structure Message where
  role : Role
  content : String
deriving DecidableEq

/-- Display label prepended to a message in the history block. -/
def roleLabel : Role → String
  | Role.user => "User"
  | Role.assistant => "Assistant"

/-- Messages selected as history context: the trailing 5 messages. -/
def historySlice (msgs : List Message) : List Message :=
  msgs.drop (msgs.length - 5)

/-- Rendered history lines. -/
def historyLines (msgs : List Message) : List String :=
  (historySlice msgs).map (fun m => roleLabel m.role ++ ": " ++ m.content)

/-- Rendered conversation-history block. -/
def historyBlock (msgs : List Message) : String :=
  String.intercalate "\n\n" (historyLines msgs)

/-- Full prompt posted to the chat backend by sendMessage. -/
def fullPrompt (ctx : Option PlantAnalysisContext) (msgs : List Message)
    (input : String) : String :=
  buildSystemPrompt ctx ++ "\n\nConversation History:\n" ++ historyBlock msgs ++
  "\n\nUser: " ++ input ++ "\n\nAssistant:"

/-- Clearing the held analysis, as in the PlantChatbot component. -/
def clearPreviousAnalysis (_ : Option PlantAnalysisContext) :
    Option PlantAnalysisContext := none

/-- Installing a new analysis context: clear the previous one, then store
the new one as the single current analysis. -/
def sendAnalysisContext (st : Option PlantAnalysisContext)
    (c : PlantAnalysisContext) : Option PlantAnalysisContext :=
  (fun _ => some c) (clearPreviousAnalysis st)

/-! ## Analyze-plant edge function: upstream response handling -/

/-- Structured analysis record produced by the analyze-plant handler. -/
structure AnalysisData where
  plant_name : String
  health_score : Nat
  has_disease : Bool
  disease_name : Option String
  confidence : Nat
  severity : String
  symptoms : List String
  recommendations : List String
  additional_notes : Option String
deriving DecidableEq

/-- Canned analysis returned when the upstream answers with HTTP 429. -/
def rateLimitedAnalysis : AnalysisData where
  plant_name := "Plant Analysis (Rate Limited)"
  health_score := 75
  has_disease := false
  disease_name := none
  confidence := 50
  severity := "unknown"
  symptoms := ["Unable to perform detailed analysis due to API limits"]
  recommendations := ["Please try again later",
    "Check plant for visible signs of disease",
    "Ensure proper watering and lighting"]
  additional_notes := some "Analysis temporarily unavailable due to API rate limits"

/-- Best-effort analysis built when the response text cannot be parsed;
the raw text is kept in the additional-notes field. -/
def unparsedAnalysis (raw : String) : AnalysisData where
  plant_name := "Unable to identify"
  health_score := 70
  has_disease := false
  disease_name := none
  confidence := 50
  severity := "unknown"
  symptoms := ["Analysis completed but unable to parse structured data"]
  recommendations := ["Please consult with a plant expert for detailed diagnosis"]
  additional_notes := some raw

/-- Upstream chat-model response: HTTP status and optional candidate text. -/
structure GeminiResponse where
  status : Nat
  text : Option String
deriving DecidableEq

/-- Terminal failures of the analyze-plant handler's response processing. -/
inductive HandlerError
  | geminiApiError (status : Nat)
  | noAnalysisText
deriving DecidableEq

/-- Fetch-style success predicate: status in [200, 300). -/
def responseOk (status : Nat) : Bool :=
  200 ≤ status && status < 300

/-- Response processing of the analyze-plant handler: on a non-ok status,
HTTP 429 yields the canned rate-limited analysis and anything else is an
error; on an ok status the candidate text is parsed, falling back to a
best-effort record that captures the raw text. -/
def handleGeminiAnalysis (parse : String → Option AnalysisData)
    (resp : GeminiResponse) : Except HandlerError AnalysisData :=
  if responseOk resp.status then
    match resp.text with
    | none => Except.error HandlerError.noAnalysisText
    | some t =>
        match parse t with
        | some d => Except.ok d
        | none => Except.ok (unparsedAnalysis t)
  else if resp.status = 429 then
    Except.ok rateLimitedAnalysis
  else
    Except.error (HandlerError.geminiApiError resp.status)

/-! ## Usage Ledger and Arbitrator

The backend file server_ai_takeover.py holding the Usage Ledger and the
confidence-gated Arbitrator is not part of the shared sources; only its
documentation (README "AI Takeover Logic", project status report, stats
dashboard notes) is. The definitions below are therefore modelled from
the specification's words. -/

/-- Modelled from the spec: token usage reported by one upstream call,
as server_ai_takeover.py's token tracking is not in the shared sources. -/
structure TokenUsage where
  input : Nat
  output : Nat
deriving DecidableEq

/-- Modelled from the spec: running token totals of the Usage Ledger. -/
structure TokenTotals where
  input : Nat
  output : Nat
  total : Nat
deriving DecidableEq

/-- Modelled from the spec: the Usage Ledger state persisted in
usage_stats.json, absent from the shared sources. -/
structure LedgerState where
  totalRequests : Nat
  scansCount : Nat
  fallbackTakeovers : Nat
  primaryAccepted : Nat
  chatMessages : Nat
  errors : Nat
  tokens : TokenTotals
  sessionStartedAt : Nat
  allTimeStartedAt : Nat
deriving DecidableEq

/-- Modelled from the spec: zero-initialized ledger state. -/
def zeroLedger : LedgerState where
  totalRequests := 0
  scansCount := 0
  fallbackTakeovers := 0
  primaryAccepted := 0
  chatMessages := 0
  errors := 0
  tokens := ⟨0, 0, 0⟩
  sessionStartedAt := 0
  allTimeStartedAt := 0

/-- Modelled from the spec: add an optional token report to the totals. -/
def addTokens (t : TokenTotals) : Option TokenUsage → TokenTotals
  | none => t
  | some u => ⟨t.input + u.input, t.output + u.output, t.total + (u.input + u.output)⟩

/-- Modelled from the spec: which path produced a result. -/
inductive Source
  | PRIMARY
  | FALLBACK
deriving DecidableEq

/-- Modelled from the spec: recordScan increments totalRequests and
scansCount, bumps the counter of the chosen path, and adds any reported
tokens. -/
def recordScan (s : LedgerState) (src : Source) (tok : Option TokenUsage) :
    LedgerState :=
  { s with
    totalRequests := s.totalRequests + 1
    scansCount := s.scansCount + 1
    primaryAccepted := s.primaryAccepted + (if src = Source.PRIMARY then 1 else 0)
    fallbackTakeovers := s.fallbackTakeovers + (if src = Source.FALLBACK then 1 else 0)
    tokens := addTokens s.tokens tok }

/-- Modelled from the spec: recordChatMessage increments chatMessages and
totalRequests and adds any reported tokens. -/
def recordChatMessage (s : LedgerState) (tok : Option TokenUsage) : LedgerState :=
  { s with
    totalRequests := s.totalRequests + 1
    chatMessages := s.chatMessages + 1
    tokens := addTokens s.tokens tok }

/-- Modelled from the spec: recordError increments only the errors counter. -/
def recordError (s : LedgerState) : LedgerState :=
  { s with errors := s.errors + 1 }

/-- Modelled from the spec: snapshot returns a read-only copy of the
committed state. -/
def snapshot (s : LedgerState) : LedgerState := s

/-- Modelled from the spec: the durable store is written whole as a
key-value document. -/
def flush (s : LedgerState) : List (String × Nat) :=
  [("totalRequests", s.totalRequests),
   ("scansCount", s.scansCount),
   ("fallbackTakeovers", s.fallbackTakeovers),
   ("primaryAccepted", s.primaryAccepted),
   ("chatMessages", s.chatMessages),
   ("errors", s.errors),
   ("tokensInput", s.tokens.input),
   ("tokensOutput", s.tokens.output),
   ("tokensTotal", s.tokens.total),
   ("sessionStartedAt", s.sessionStartedAt),
   ("allTimeStartedAt", s.allTimeStartedAt)]

/-- Modelled from the spec: decoding the durable key-value document;
`none` signals a corrupt document. -/
def decodeLedger (kv : List (String × Nat)) : Option LedgerState := do
  let totalRequests ← kv.lookup "totalRequests"
  let scansCount ← kv.lookup "scansCount"
  let fallbackTakeovers ← kv.lookup "fallbackTakeovers"
  let primaryAccepted ← kv.lookup "primaryAccepted"
  let chatMessages ← kv.lookup "chatMessages"
  let errors ← kv.lookup "errors"
  let tokensInput ← kv.lookup "tokensInput"
  let tokensOutput ← kv.lookup "tokensOutput"
  let tokensTotal ← kv.lookup "tokensTotal"
  let sessionStartedAt ← kv.lookup "sessionStartedAt"
  let allTimeStartedAt ← kv.lookup "allTimeStartedAt"
  pure ⟨totalRequests, scansCount, fallbackTakeovers, primaryAccepted,
    chatMessages, errors, ⟨tokensInput, tokensOutput, tokensTotal⟩,
    sessionStartedAt, allTimeStartedAt⟩

/-- Modelled from the spec: load reads durable storage; an absent or
corrupt document yields a zero-initialized state without failing. -/
def load (store : Option (List (String × Nat))) : LedgerState :=
  match store with
  | none => zeroLedger
  | some kv => (decodeLedger kv).getD zeroLedger

/-- Modelled from the spec: classifier output. -/
structure ClassifierResult where
  label : String
  confidence : ℚ
deriving DecidableEq

/-- Modelled from the spec: primary-path failure. -/
inductive ClassifierError
  | ClassifierUnavailable
deriving DecidableEq

/-- Modelled from the spec: fallback analyzer output. -/
structure FallbackResult where
  label : String
  diseaseName : Option String
  severity : String
  symptoms : List String
  recommendations : List String
  healthScore : Nat
  tokenUsage : TokenUsage
deriving DecidableEq

/-- Modelled from the spec: fallback-path failures. -/
inductive FallbackError
  | UpstreamUnavailable
  | UpstreamRateLimited
deriving DecidableEq

/-- Modelled from the spec: terminal failure when both paths fail. -/
inductive AnalysisError
  | AnalysisUnavailable
deriving DecidableEq

/-- Modelled from the spec: the decided result of one request. -/
inductive ArbResult
  | primary (r : ClassifierResult)
  | fallback (r : FallbackResult)
deriving DecidableEq

/-- Modelled from the spec: the outcome returned to the caller, tagged
with the path that produced it. -/
structure ArbitrationOutcome where
  source : Source
  result : ArbResult
deriving DecidableEq

/-- Modelled from the spec: the configurable confidence threshold
defaults to 0.50. -/
def defaultThreshold : ℚ := 1 / 2

/-- Modelled from the spec: fallback leg of the Arbitrator; on success it
records a FALLBACK scan with the reported tokens, and if the fallback also
fails the whole request fails with AnalysisUnavailable and an error is
recorded. -/
def fallbackPath (fb : Except FallbackError FallbackResult) (L : LedgerState) :
    Except AnalysisError ArbitrationOutcome × LedgerState :=
  match fb with
  | Except.ok fr =>
      (Except.ok ⟨Source.FALLBACK, ArbResult.fallback fr⟩,
       recordScan L Source.FALLBACK (some fr.tokenUsage))
  | Except.error _ => (Except.error AnalysisError.AnalysisUnavailable, recordError L)

/-- Modelled from the spec: the Arbitrator. A primary result with
confidence at or above the threshold is accepted and recorded as a
PRIMARY scan with no tokens; otherwise (low confidence or primary
unavailable) the fallback path decides. -/
def arbitrate (threshold : ℚ) (primary : Except ClassifierError ClassifierResult)
    (fb : Except FallbackError FallbackResult) (L : LedgerState) :
    Except AnalysisError ArbitrationOutcome × LedgerState :=
  match primary with
  | Except.ok r =>
      if threshold ≤ r.confidence then
        (Except.ok ⟨Source.PRIMARY, ArbResult.primary r⟩,
         recordScan L Source.PRIMARY none)
      else fallbackPath fb L
  | Except.error _ => fallbackPath fb L

/-! ## Ledger operation sequences -/

/-- Ledger mutations available within one process lifetime. -/
inductive LedgerOp
  | scan (src : Source) (tok : Option TokenUsage)
  | chat (tok : Option TokenUsage)
  | err
  | snap
deriving DecidableEq

/-- Apply one ledger operation. -/
def applyOp (s : LedgerState) : LedgerOp → LedgerState
  | LedgerOp.scan src tok => recordScan s src tok
  | LedgerOp.chat tok => recordChatMessage s tok
  | LedgerOp.err => recordError s
  | LedgerOp.snap => snapshot s

/-- Apply a sequence of ledger operations in order. -/
def applyOps (s : LedgerState) (ops : List LedgerOp) : LedgerState :=
  ops.foldl applyOp s

/-- Number of completed scans in an operation sequence. -/
def countScans (ops : List LedgerOp) : Nat :=
  ops.countP (fun o => match o with | LedgerOp.scan _ _ => true | _ => false)

/-- The ledger bookkeeping invariant: scans split exactly into the two paths. -/
def Inv (s : LedgerState) : Prop :=
  s.scansCount = s.fallbackTakeovers + s.primaryAccepted

instance (s : LedgerState) : Decidable (Inv s) := by
  unfold Inv; infer_instance

/-- Pointwise order on all ledger counters. -/
def counterLe (s t : LedgerState) : Prop :=
  s.totalRequests ≤ t.totalRequests ∧
  s.scansCount ≤ t.scansCount ∧
  s.fallbackTakeovers ≤ t.fallbackTakeovers ∧
  s.primaryAccepted ≤ t.primaryAccepted ∧
  s.chatMessages ≤ t.chatMessages ∧
  s.errors ≤ t.errors ∧
  s.tokens.input ≤ t.tokens.input ∧
  s.tokens.output ≤ t.tokens.output ∧
  s.tokens.total ≤ t.tokens.total

instance (s t : LedgerState) : Decidable (counterLe s t) := by
  unfold counterLe; infer_instance

/-! ## Request-level runs (scans and chats against the ledger) -/

/-- One completed request of a run: a scan given both adapters' outcomes,
or a chat message. -/
inductive ReqEvent
  | scan (primary : Except ClassifierError ClassifierResult)
      (fb : Except FallbackError FallbackResult)
  | chat (tok : Option TokenUsage)

/-- Ledger transition of one request. -/
def stepEvent (t : ℚ) (L : LedgerState) : ReqEvent → LedgerState
  | ReqEvent.scan p f => (arbitrate t p f L).2
  | ReqEvent.chat tok => recordChatMessage L tok

/-- Ledger after a whole run. -/
def runEvents (t : ℚ) (L : LedgerState) (es : List ReqEvent) : LedgerState :=
  es.foldl (stepEvent t) L

/-- The source the Arbitrator chooses for a scan, given the primary
classifier's outcome. -/
def scanSource (t : ℚ) (p : Except ClassifierError ClassifierResult) : Source :=
  match p with
  | Except.ok r => if t ≤ r.confidence then Source.PRIMARY else Source.FALLBACK
  | Except.error _ => Source.FALLBACK

/-- Tokens reported by the fallback analyzer, zero when it failed. -/
def fallbackReported (fb : Except FallbackError FallbackResult) : TokenUsage :=
  match fb with
  | Except.ok fr => fr.tokenUsage
  | Except.error _ => ⟨0, 0⟩

/-- Tokens a request contributes to the ledger totals: the fallback
analyzer's reported tokens on FALLBACK-sourced scans, the reported tokens
on chats, and nothing on PRIMARY-sourced scans. -/
def eventTokens (t : ℚ) : ReqEvent → TokenUsage
  | ReqEvent.scan p f =>
      if scanSource t p = Source.FALLBACK then fallbackReported f else ⟨0, 0⟩
  | ReqEvent.chat tok => tok.getD ⟨0, 0⟩

/-! ## Shared sample data for witnesses -/

/-- Sample fallback analyzer result. -/
def sampleFallback : FallbackResult where
  label := "Leaf Blight"
  diseaseName := some "Leaf Blight"
  severity := "high"
  symptoms := ["spots"]
  recommendations := ["prune"]
  healthScore := 40
  tokenUsage := ⟨512, 128⟩

/-! ## Claim theorems -/

/-- C1: for a primary result with confidence c, the arbitrator accepts the
primary result (source PRIMARY) whenever c is at or above the threshold —
including exactly at the boundary — and otherwise returns the fallback
analyzer's result tagged FALLBACK. -/
theorem arbitrate_threshold_decision (t : ℚ) (r : ClassifierResult)
    (fr : FallbackResult) (L : LedgerState) :
    (t ≤ r.confidence →
      (arbitrate t (Except.ok r) (Except.ok fr) L).1 =
        Except.ok ⟨Source.PRIMARY, ArbResult.primary r⟩) ∧
    (r.confidence < t →
      (arbitrate t (Except.ok r) (Except.ok fr) L).1 =
        Except.ok ⟨Source.FALLBACK, ArbResult.fallback fr⟩) ∧
    (r.confidence = t →
      (arbitrate t (Except.ok r) (Except.ok fr) L).1 =
        Except.ok ⟨Source.PRIMARY, ArbResult.primary r⟩) := by
  refine ⟨fun h => ?_, fun h => ?_, fun h => ?_⟩
  · simp [arbitrate, h]
  · simp [arbitrate, fallbackPath, not_le.mpr h]
  · simp [arbitrate, h.ge]

/-- C1 witness: at the default threshold, confidence exactly 1/2 stays on
the primary path and confidence 22/100 takes the fallback. -/
theorem arbitrate_threshold_decision_witness :
    (defaultThreshold ≤ ({ label := "Healthy", confidence := 1 / 2 } :
        ClassifierResult).confidence) ∧
    ((arbitrate defaultThreshold (Except.ok { label := "Healthy", confidence := 1 / 2 })
        (Except.ok sampleFallback) zeroLedger).1 =
      Except.ok ⟨Source.PRIMARY, ArbResult.primary { label := "Healthy", confidence := 1 / 2 }⟩) ∧
    (({ label := "Mystery", confidence := 22 / 100 } : ClassifierResult).confidence
        < defaultThreshold) ∧
    ((arbitrate defaultThreshold (Except.ok { label := "Mystery", confidence := 22 / 100 })
        (Except.ok sampleFallback) zeroLedger).1 =
      Except.ok ⟨Source.FALLBACK, ArbResult.fallback sampleFallback⟩) :=
  ⟨by norm_num [defaultThreshold],
   (arbitrate_threshold_decision defaultThreshold _ sampleFallback zeroLedger).1
     (by norm_num [defaultThreshold]),
   by norm_num [defaultThreshold],
   (arbitrate_threshold_decision defaultThreshold _ sampleFallback zeroLedger).2.1
     (by norm_num [defaultThreshold])⟩

theorem applyOp_inv {s : LedgerState} (op : LedgerOp) (h : Inv s) :
    Inv (applyOp s op) := by
  cases op with
  | scan src tok =>
      cases src <;> simp [applyOp, recordScan, Inv] at * <;> omega
  | chat tok => simpa [applyOp, recordChatMessage, Inv] using h
  | err => simpa [applyOp, recordError, Inv] using h
  | snap => simpa [applyOp, snapshot, Inv] using h

theorem applyOps_inv : ∀ (ops : List LedgerOp) {s : LedgerState},
    Inv s → Inv (applyOps s ops)
  | [], _, h => h
  | op :: ops, _, h => applyOps_inv ops (applyOp_inv op h)

theorem counterLe_refl (s : LedgerState) : counterLe s s := by
  unfold counterLe; omega

theorem counterLe_trans {s t u : LedgerState} (h : counterLe s t)
    (h' : counterLe t u) : counterLe s u := by
  unfold counterLe at *; omega

theorem applyOp_counterLe (s : LedgerState) (op : LedgerOp) :
    counterLe s (applyOp s op) := by
  cases op with
  | scan src tok =>
      cases tok <;> cases src <;>
        simp [applyOp, recordScan, addTokens, counterLe]
  | chat tok =>
      cases tok <;> simp [applyOp, recordChatMessage, addTokens, counterLe]
  | err => simp [applyOp, recordError, counterLe]
  | snap => exact counterLe_refl s

theorem applyOps_counterLe : ∀ (ops : List LedgerOp) (s : LedgerState),
    counterLe s (applyOps s ops)
  | [], s => counterLe_refl s
  | op :: ops, s =>
      counterLe_trans (applyOp_counterLe s op) (applyOps_counterLe ops (applyOp s op))

/-- Contribution of one operation to the scan counter. -/
def scanInc : LedgerOp → Nat
  | LedgerOp.scan _ _ => 1
  | _ => 0

theorem applyOps_scansCount : ∀ (ops : List LedgerOp) (s : LedgerState),
    (applyOps s ops).scansCount = s.scansCount + countScans ops
  | [], _ => by simp [applyOps, countScans]
  | op :: ops, s => by
      have ih := applyOps_scansCount ops (applyOp s op)
      have hop : (applyOp s op).scansCount = s.scansCount + scanInc op := by
        cases op <;>
          simp [applyOp, recordScan, recordChatMessage, recordError, snapshot, scanInc]
      have hc : countScans (op :: ops) = scanInc op + countScans ops := by
        cases op <;> simp [countScans, List.countP_cons, scanInc, Nat.add_comm]
      show (applyOps (applyOp s op) ops).scansCount = _
      rw [ih, hop, hc]
      omega

/-- C2: the ledger invariant scansCount = fallbackTakeovers +
primaryAccepted holds for the zero state and is preserved by every
operation sequence; all counters are monotonically non-decreasing along
any operation sequence; and a fresh ledger that completes N scan requests
(in any mix of operations) shows scansCount = N. -/
theorem ledger_invariant (s : LedgerState) (ops : List LedgerOp) (h : Inv s) :
    Inv zeroLedger ∧
    Inv (applyOps s ops) ∧
    counterLe s (applyOps s ops) ∧
    (applyOps zeroLedger ops).scansCount = countScans ops := by
  refine ⟨by decide, applyOps_inv ops h, applyOps_counterLe ops s, ?_⟩
  have := applyOps_scansCount ops zeroLedger
  simpa [zeroLedger] using this

/-- C2 witness: a concrete sequence of two scans, one chat and one error
from the zero state keeps the invariant and counts exactly two scans. -/
theorem ledger_invariant_witness :
    Inv zeroLedger ∧
    Inv (applyOps zeroLedger
      [LedgerOp.scan Source.PRIMARY none,
       LedgerOp.scan Source.FALLBACK (some ⟨512, 128⟩),
       LedgerOp.chat none, LedgerOp.err]) ∧
    counterLe zeroLedger (applyOps zeroLedger
      [LedgerOp.scan Source.PRIMARY none,
       LedgerOp.scan Source.FALLBACK (some ⟨512, 128⟩),
       LedgerOp.chat none, LedgerOp.err]) ∧
    (applyOps zeroLedger
      [LedgerOp.scan Source.PRIMARY none,
       LedgerOp.scan Source.FALLBACK (some ⟨512, 128⟩),
       LedgerOp.chat none, LedgerOp.err]).scansCount =
      countScans
        [LedgerOp.scan Source.PRIMARY none,
         LedgerOp.scan Source.FALLBACK (some ⟨512, 128⟩),
         LedgerOp.chat none, LedgerOp.err] :=
  ledger_invariant zeroLedger
    [LedgerOp.scan Source.PRIMARY none,
     LedgerOp.scan Source.FALLBACK (some ⟨512, 128⟩),
     LedgerOp.chat none, LedgerOp.err] (by decide)

theorem stepEvent_tokens (t : ℚ) (L : LedgerState) (e : ReqEvent) :
    (stepEvent t L e).tokens.input = L.tokens.input + (eventTokens t e).input ∧
    (stepEvent t L e).tokens.output = L.tokens.output + (eventTokens t e).output := by
  cases e with
  | scan p f =>
      cases p with
      | ok r =>
          by_cases hc : t ≤ r.confidence
          · simp [stepEvent, arbitrate, hc, recordScan, addTokens, eventTokens,
              scanSource]
          · cases f with
            | ok fr =>
                simp [stepEvent, arbitrate, hc, fallbackPath, recordScan,
                  addTokens, eventTokens, scanSource, fallbackReported]
            | error e' =>
                simp [stepEvent, arbitrate, hc, fallbackPath, recordError,
                  eventTokens, scanSource, fallbackReported]
      | error e' =>
          cases f with
          | ok fr =>
              simp [stepEvent, arbitrate, fallbackPath, recordScan, addTokens,
                eventTokens, scanSource, fallbackReported]
          | error e'' =>
              simp [stepEvent, arbitrate, fallbackPath, recordError, eventTokens,
                scanSource, fallbackReported]
  | chat tok =>
      cases tok <;>
        simp [stepEvent, recordChatMessage, addTokens, eventTokens, Option.getD]

theorem runEvents_tokens : ∀ (es : List ReqEvent) (t : ℚ) (L : LedgerState),
    (runEvents t L es).tokens.input =
      L.tokens.input + (es.map (fun e => (eventTokens t e).input)).sum ∧
    (runEvents t L es).tokens.output =
      L.tokens.output + (es.map (fun e => (eventTokens t e).output)).sum
  | [], t, L => by simp [runEvents]
  | e :: es, t, L => by
      have h := stepEvent_tokens t L e
      have ih := runEvents_tokens es t (stepEvent t L e)
      have hr : runEvents t L (e :: es) = runEvents t (stepEvent t L e) es := rfl
      rw [hr]
      simp only [List.map_cons, List.sum_cons]
      omega

/-- C3: recordScan bumps totalRequests and scansCount by one, bumps
exactly the counter of the passed source, adds exactly the passed token
amounts when present and leaves the totals unchanged otherwise; and over
any run, the recorded input/output token totals are the sums of the
fallback analyzer's reported tokens over FALLBACK-sourced scans plus all
chat tokens, PRIMARY-sourced scans contributing zero. -/
theorem record_scan_token_accounting (s : LedgerState) (src : Source)
    (tok : Option TokenUsage) (t : ℚ) (L : LedgerState) (es : List ReqEvent) :
    (recordScan s src tok).totalRequests = s.totalRequests + 1 ∧
    (recordScan s src tok).scansCount = s.scansCount + 1 ∧
    (recordScan s src tok).primaryAccepted =
      s.primaryAccepted + (if src = Source.PRIMARY then 1 else 0) ∧
    (recordScan s src tok).fallbackTakeovers =
      s.fallbackTakeovers + (if src = Source.FALLBACK then 1 else 0) ∧
    (∀ u, (recordScan s src (some u)).tokens.input = s.tokens.input + u.input ∧
      (recordScan s src (some u)).tokens.output = s.tokens.output + u.output) ∧
    (recordScan s src none).tokens = s.tokens ∧
    (∀ p f, scanSource t p = Source.PRIMARY →
      eventTokens t (ReqEvent.scan p f) = ⟨0, 0⟩) ∧
    (runEvents t L es).tokens.input =
      L.tokens.input + (es.map (fun e => (eventTokens t e).input)).sum ∧
    (runEvents t L es).tokens.output =
      L.tokens.output + (es.map (fun e => (eventTokens t e).output)).sum := by
  refine ⟨rfl, rfl, rfl, rfl, fun u => ⟨rfl, rfl⟩, rfl, fun p f hp => ?_,
    (runEvents_tokens es t L).1, (runEvents_tokens es t L).2⟩
  simp [eventTokens, hp]

/-- C3 witness: concrete instantiation, with a PRIMARY-decided scan
contributing zero tokens. -/
theorem record_scan_token_accounting_witness :
    (recordScan zeroLedger Source.FALLBACK (some ⟨512, 128⟩)).scansCount = 1 ∧
    scanSource defaultThreshold
      (Except.ok { label := "Healthy", confidence := 73 / 100 }) = Source.PRIMARY ∧
    eventTokens defaultThreshold
      (ReqEvent.scan (Except.ok { label := "Healthy", confidence := 73 / 100 })
        (Except.ok sampleFallback)) = ⟨0, 0⟩ :=
  ⟨(record_scan_token_accounting zeroLedger Source.FALLBACK (some ⟨512, 128⟩)
      defaultThreshold zeroLedger []).2.1,
   by norm_num [scanSource, defaultThreshold],
   (record_scan_token_accounting zeroLedger Source.FALLBACK (some ⟨512, 128⟩)
      defaultThreshold zeroLedger []).2.2.2.2.2.2.1
      (Except.ok { label := "Healthy", confidence := 73 / 100 })
      (Except.ok sampleFallback)
      (by norm_num [scanSource, defaultThreshold])⟩

/-- C4: when both the primary classifier and the fallback analyzer fail,
the whole request fails with AnalysisUnavailable and recordError is
called; only the errors counter moves, and scan counters, chat counter
and token totals are untouched. -/
theorem both_fail_analysis_unavailable (t : ℚ) (e : ClassifierError)
    (e' : FallbackError) (L : LedgerState) :
    arbitrate t (Except.error e) (Except.error e') L =
      (Except.error AnalysisError.AnalysisUnavailable, recordError L) ∧
    (recordError L).errors = L.errors + 1 ∧
    (recordError L).scansCount = L.scansCount ∧
    (recordError L).primaryAccepted = L.primaryAccepted ∧
    (recordError L).fallbackTakeovers = L.fallbackTakeovers ∧
    (recordError L).totalRequests = L.totalRequests ∧
    (recordError L).chatMessages = L.chatMessages ∧
    (recordError L).tokens = L.tokens := by
  refine ⟨?_, rfl, rfl, rfl, rfl, rfl, rfl, rfl⟩
  simp [arbitrate, fallbackPath]

/-- C5: loading right after a flush reproduces the exact prior ledger
state, while an absent or corrupt durable document loads as the
zero-initialized state without failing. -/
theorem ledger_load_roundtrip (s : LedgerState) :
    load (some (flush s)) = s ∧
    load none = zeroLedger ∧
    (∀ kv, decodeLedger kv = none → load (some kv) = zeroLedger) := by
  refine ⟨?_, rfl, fun kv h => ?_⟩
  · simp [load, flush, decodeLedger, List.lookup]
  · simp [load, h]

/-- C5 witness: round trip at a concrete state and load of an empty
(corrupt) document. -/
theorem ledger_load_roundtrip_witness :
    load (some (flush zeroLedger)) = zeroLedger ∧
    decodeLedger [] = none ∧
    load (some []) = zeroLedger :=
  ⟨(ledger_load_roundtrip zeroLedger).1, by decide,
   (ledger_load_roundtrip zeroLedger).2.2 [] (by decide)⟩

/-- C6: when the upstream analysis response arrives with an ok status, a
response text that fails to parse never propagates a failure — the
handler returns the best-effort record carrying the raw text in the
additional-notes field — and a parseable text returns exactly the parsed
structured fields. -/
theorem analyze_parse_fallback (parse : String → Option AnalysisData)
    (status : Nat) (t : String) (hok : responseOk status = true) :
    (parse t = none →
      handleGeminiAnalysis parse ⟨status, some t⟩ =
        Except.ok (unparsedAnalysis t) ∧
      (unparsedAnalysis t).additional_notes = some t) ∧
    (∀ d, parse t = some d →
      handleGeminiAnalysis parse ⟨status, some t⟩ = Except.ok d) := by
  constructor
  · intro h
    exact ⟨by simp [handleGeminiAnalysis, hok, h], rfl⟩
  · intro d h
    simp [handleGeminiAnalysis, hok, h]

/-- C6 witness: a status-200 response whose text does not parse yields
the best-effort record holding the raw text. -/
theorem analyze_parse_fallback_witness :
    responseOk 200 = true ∧
    handleGeminiAnalysis (fun _ => none) ⟨200, some "not json"⟩ =
      Except.ok (unparsedAnalysis "not json") ∧
    (unparsedAnalysis "not json").additional_notes = some "not json" :=
  ⟨by decide,
   ((analyze_parse_fallback (fun _ => none) 200 "not json" (by decide)).1 rfl).1,
   ((analyze_parse_fallback (fun _ => none) 200 "not json" (by decide)).1 rfl).2⟩

/-- C7 counterexample: on an explicit HTTP 429 rate-limit signal the
handler does not fail at all — it returns a successful canned analysis. -/
theorem rate_limit_returns_success :
    handleGeminiAnalysis (fun _ => none) ⟨429, none⟩ =
      Except.ok rateLimitedAnalysis ∧
    ∀ e, handleGeminiAnalysis (fun _ => none) ⟨429, none⟩ ≠ Except.error e := by
  constructor
  · rfl
  · intro e h
    rw [show handleGeminiAnalysis (fun _ => none) ⟨429, none⟩ =
          Except.ok rateLimitedAnalysis from rfl] at h
    exact Except.noConfusion h

/-- C7 amended: on an explicit rate-limit (HTTP 429) signal, the analyze
handler returns a successful best-effort fallback analysis — the canned
"Plant Analysis (Rate Limited)" record — instead of failing. -/
theorem rate_limit_canned_fallback (parse : String → Option AnalysisData)
    (txt : Option String) :
    handleGeminiAnalysis parse ⟨429, txt⟩ = Except.ok rateLimitedAnalysis ∧
    rateLimitedAnalysis.plant_name = "Plant Analysis (Rate Limited)" ∧
    rateLimitedAnalysis.has_disease = false := by
  refine ⟨?_, rfl, rfl⟩
  simp [handleGeminiAnalysis, responseOk]

/-- C9: installing a new analysis discards the previous one wholesale:
the held context becomes exactly the new analysis, and every prompt built
afterwards is a function of the new analysis only — independent of what
was held before. -/
theorem new_analysis_replaces_old (old : Option PlantAnalysisContext)
    (c : PlantAnalysisContext) :
    sendAnalysisContext old c = some c ∧
    clearPreviousAnalysis old = none ∧
    (∀ old' msgs inp, fullPrompt (sendAnalysisContext old c) msgs inp =
      fullPrompt (sendAnalysisContext old' c) msgs inp) ∧
    buildSystemPrompt (sendAnalysisContext old c) = buildSystemPrompt (some c) :=
  ⟨rfl, rfl, fun _ _ _ => rfl, rfl⟩

/-- C10: the history block of every prompt holds exactly the trailing
min(5, length) messages — a suffix of the conversation — so messages older
than the 5 most recent never enter the prompt, and that block is embedded
in the posted prompt. -/
theorem history_last_five (msgs : List Message) :
    (historySlice msgs).length = min 5 msgs.length ∧
    historySlice msgs <:+ msgs ∧
    ∀ ctx inp, occursIn (historyBlock msgs) (fullPrompt ctx msgs inp) := by
  refine ⟨?_, List.drop_suffix _ _, fun ctx inp => ?_⟩
  · simp only [historySlice, List.length_drop]
    omega
  · apply occursIn_witness
      ((buildSystemPrompt ctx ++ "\n\nConversation History:\n").data)
      (("\n\nUser: " ++ inp ++ "\n\nAssistant:").data)
    simp [fullPrompt, List.append_assoc]

/-- Concrete healthy analysis context. -/
def healthyContext : PlantAnalysisContext where
  plantName := "Aloe vera"
  diseaseDetected := false
  diseaseName := ""
  confidence := 91
  severity := "High"
  symptoms := ["wilting"]
  recommendations := ["water less"]
  healthScore := 88
  aiAssist := none

/-- Concrete diseased analysis context. -/
def diseasedContext : PlantAnalysisContext where
  plantName := "Tomato"
  diseaseDetected := true
  diseaseName := "Leaf Blight"
  confidence := 92
  severity := "high"
  symptoms := ["spots", "wilting"]
  recommendations := ["remove affected leaves"]
  healthScore := 40
  aiAssist := none

set_option maxRecDepth 20000 in
/-- C8 counterexample: for a present analysis with no disease detected,
the built system prompt does not embed the analysis's severity, symptoms
or recommendations fields. -/
theorem healthy_prompt_omits_fields :
    ¬ occursIn ("Severity: " ++ healthyContext.severity)
        (buildSystemPrompt (some healthyContext)) ∧
    ¬ occursIn ("Symptoms: " ++ String.intercalate ", " healthyContext.symptoms)
        (buildSystemPrompt (some healthyContext)) ∧
    ¬ occursIn ("Recommendations: " ++
          String.intercalate ", " healthyContext.recommendations)
        (buildSystemPrompt (some healthyContext)) := by
  refine ⟨?_, ?_, ?_⟩ <;> decide

/-- C8 amended: with no analysis present the generic prompt (free of
plant-specific fields) is used; with an analysis present the prompt
always embeds the plant identity and disease status; the severity,
confidence, health score, and any non-empty symptoms and recommendations
are embedded exactly when a disease was detected, while a disease-free
analysis contributes only its health-score sentence. -/
theorem prompt_embeds_analysis_fields (ctx : PlantAnalysisContext) :
    (buildSystemPrompt none = genericPrompt ∧
      ¬ occursIn "Plant Name:" genericPrompt ∧
      ¬ occursIn "Disease Detected:" genericPrompt ∧
      ¬ occursIn "Severity:" genericPrompt ∧
      ¬ occursIn "Symptoms:" genericPrompt ∧
      ¬ occursIn "Recommendations:" genericPrompt) ∧
    occursIn ("Plant Name: " ++ ctx.plantName) (buildSystemPrompt (some ctx)) ∧
    occursIn ("Disease Detected: " ++ (if ctx.diseaseDetected then "Yes" else "No"))
      (buildSystemPrompt (some ctx)) ∧
    (ctx.diseaseDetected = true →
      occursIn ("Disease Name: " ++ ctx.diseaseName) (buildSystemPrompt (some ctx)) ∧
      occursIn ("Severity: " ++ ctx.severity) (buildSystemPrompt (some ctx)) ∧
      occursIn ("Confidence: " ++ toString ctx.confidence ++ "%")
        (buildSystemPrompt (some ctx)) ∧
      occursIn ("Health Score: " ++ toString ctx.healthScore ++ "/100")
        (buildSystemPrompt (some ctx)) ∧
      (ctx.symptoms ≠ [] →
        occursIn ("Symptoms: " ++ String.intercalate ", " ctx.symptoms)
          (buildSystemPrompt (some ctx))) ∧
      (ctx.recommendations ≠ [] →
        occursIn ("Recommendations: " ++ String.intercalate ", " ctx.recommendations)
          (buildSystemPrompt (some ctx)))) ∧
    (ctx.diseaseDetected = false →
      occursIn ("The plant appears healthy with a score of " ++
          toString ctx.healthScore ++ "/100.")
        (buildSystemPrompt (some ctx))) := by
  refine ⟨⟨rfl, by decide, by decide, by decide, by decide, by decide⟩, ?_, ?_, ?_, ?_⟩
  · apply occursIn_witness (promptHeader.data)
      (("\n" ++ "Disease Detected: " ++ (if ctx.diseaseDetected then "Yes" else "No") ++
        "\n" ++ (if ctx.diseaseDetected then diseaseSection ctx else healthySection ctx) ++
        aiAssistSection ctx ++ promptTail).data)
    simp [buildSystemPrompt, List.append_assoc]
  · apply occursIn_witness
      ((promptHeader ++ "Plant Name: " ++ ctx.plantName ++ "\n").data)
      (("\n" ++ (if ctx.diseaseDetected then diseaseSection ctx else healthySection ctx) ++
        aiAssistSection ctx ++ promptTail).data)
    simp [buildSystemPrompt, List.append_assoc]
  · intro hdet
    refine ⟨?_, ?_, ?_, ?_, fun hs => ?_, fun hr => ?_⟩
    · apply occursIn_witness
        ((promptHeader ++ "Plant Name: " ++ ctx.plantName ++ "\n" ++
          "Disease Detected: " ++ "Yes" ++ "\n").data)
        (("\n" ++ "Severity: " ++ ctx.severity ++ "\n" ++
          "Confidence: " ++ toString ctx.confidence ++ "%" ++ "\n" ++
          "Health Score: " ++ toString ctx.healthScore ++ "/100" ++ "\n" ++
          (if 0 < ctx.symptoms.length then
            "Symptoms: " ++ String.intercalate ", " ctx.symptoms ++ "\n" else "") ++
          (if 0 < ctx.recommendations.length then
            "Recommendations: " ++ String.intercalate ", " ctx.recommendations ++ "\n"
           else "") ++
          aiAssistSection ctx ++ promptTail).data)
      simp [buildSystemPrompt, diseaseSection, hdet, List.append_assoc]
    · apply occursIn_witness
        ((promptHeader ++ "Plant Name: " ++ ctx.plantName ++ "\n" ++
          "Disease Detected: " ++ "Yes" ++ "\n" ++
          "Disease Name: " ++ ctx.diseaseName ++ "\n").data)
        (("\n" ++ "Confidence: " ++ toString ctx.confidence ++ "%" ++ "\n" ++
          "Health Score: " ++ toString ctx.healthScore ++ "/100" ++ "\n" ++
          (if 0 < ctx.symptoms.length then
            "Symptoms: " ++ String.intercalate ", " ctx.symptoms ++ "\n" else "") ++
          (if 0 < ctx.recommendations.length then
            "Recommendations: " ++ String.intercalate ", " ctx.recommendations ++ "\n"
           else "") ++
          aiAssistSection ctx ++ promptTail).data)
      simp [buildSystemPrompt, diseaseSection, hdet, List.append_assoc]
    · apply occursIn_witness
        ((promptHeader ++ "Plant Name: " ++ ctx.plantName ++ "\n" ++
          "Disease Detected: " ++ "Yes" ++ "\n" ++
          "Disease Name: " ++ ctx.diseaseName ++ "\n" ++
          "Severity: " ++ ctx.severity ++ "\n").data)
        (("\n" ++ "Health Score: " ++ toString ctx.healthScore ++ "/100" ++ "\n" ++
          (if 0 < ctx.symptoms.length then
            "Symptoms: " ++ String.intercalate ", " ctx.symptoms ++ "\n" else "") ++
          (if 0 < ctx.recommendations.length then
            "Recommendations: " ++ String.intercalate ", " ctx.recommendations ++ "\n"
           else "") ++
          aiAssistSection ctx ++ promptTail).data)
      simp [buildSystemPrompt, diseaseSection, hdet, List.append_assoc]
    · apply occursIn_witness
        ((promptHeader ++ "Plant Name: " ++ ctx.plantName ++ "\n" ++
          "Disease Detected: " ++ "Yes" ++ "\n" ++
          "Disease Name: " ++ ctx.diseaseName ++ "\n" ++
          "Severity: " ++ ctx.severity ++ "\n" ++
          "Confidence: " ++ toString ctx.confidence ++ "%" ++ "\n").data)
        (("\n" ++
          (if 0 < ctx.symptoms.length then
            "Symptoms: " ++ String.intercalate ", " ctx.symptoms ++ "\n" else "") ++
          (if 0 < ctx.recommendations.length then
            "Recommendations: " ++ String.intercalate ", " ctx.recommendations ++ "\n"
           else "") ++
          aiAssistSection ctx ++ promptTail).data)
      simp [buildSystemPrompt, diseaseSection, hdet, List.append_assoc]
    · have hlen : 0 < ctx.symptoms.length := List.length_pos.mpr hs
      apply occursIn_witness
        ((promptHeader ++ "Plant Name: " ++ ctx.plantName ++ "\n" ++
          "Disease Detected: " ++ "Yes" ++ "\n" ++
          "Disease Name: " ++ ctx.diseaseName ++ "\n" ++
          "Severity: " ++ ctx.severity ++ "\n" ++
          "Confidence: " ++ toString ctx.confidence ++ "%" ++ "\n" ++
          "Health Score: " ++ toString ctx.healthScore ++ "/100" ++ "\n").data)
        (("\n" ++
          (if 0 < ctx.recommendations.length then
            "Recommendations: " ++ String.intercalate ", " ctx.recommendations ++ "\n"
           else "") ++
          aiAssistSection ctx ++ promptTail).data)
      simp [buildSystemPrompt, diseaseSection, hdet, hlen, List.append_assoc]
    · have hlen : 0 < ctx.recommendations.length := List.length_pos.mpr hr
      apply occursIn_witness
        ((promptHeader ++ "Plant Name: " ++ ctx.plantName ++ "\n" ++
          "Disease Detected: " ++ "Yes" ++ "\n" ++
          "Disease Name: " ++ ctx.diseaseName ++ "\n" ++
          "Severity: " ++ ctx.severity ++ "\n" ++
          "Confidence: " ++ toString ctx.confidence ++ "%" ++ "\n" ++
          "Health Score: " ++ toString ctx.healthScore ++ "/100" ++ "\n" ++
          (if 0 < ctx.symptoms.length then
            "Symptoms: " ++ String.intercalate ", " ctx.symptoms ++ "\n" else "")).data)
        (("\n" ++ aiAssistSection ctx ++ promptTail).data)
      simp [buildSystemPrompt, diseaseSection, hdet, hlen, List.append_assoc]
  · intro hdet
    apply occursIn_witness
      ((promptHeader ++ "Plant Name: " ++ ctx.plantName ++ "\n" ++
        "Disease Detected: " ++ "No" ++ "\n").data)
      (("\n" ++ aiAssistSection ctx ++ promptTail).data)
    simp [buildSystemPrompt, healthySection, hdet, List.append_assoc]

/-- C8 witness: the amended statement at a concrete diseased analysis. -/
theorem prompt_embeds_analysis_fields_witness :
    diseasedContext.diseaseDetected = true ∧
    diseasedContext.symptoms ≠ [] ∧
    occursIn ("Severity: " ++ diseasedContext.severity)
      (buildSystemPrompt (some diseasedContext)) ∧
    occursIn ("Symptoms: " ++ String.intercalate ", " diseasedContext.symptoms)
      (buildSystemPrompt (some diseasedContext)) :=
  ⟨rfl, by decide,
   ((prompt_embeds_analysis_fields diseasedContext).2.2.2.1 rfl).2.1,
   ((prompt_embeds_analysis_fields diseasedContext).2.2.2.1 rfl).2.2.2.2.1
     (by decide)⟩

end PlantDetect
